import Mathlib

/-!
Verification of the WhatsApp-Integration core: the per-participant workflow
state machine (backend/fsm.py, backend/fsm_manager.py, backend/gateway.py)
and the reminder scheduler/dispatcher (backend/reminder_service.py,
backend/media_service.py), shallowly embedded in Lean.

Python dicts become association lists, the Supabase tables become lists of
rows, datetimes become minutes-since-epoch naturals, and the dispatcher's
try/except is made explicit with `Except`.
-/

namespace WhatsAppIntegration

/-! ### Transition tables (backend/fsm.py) -/

/-- A Python `dict.get k` over an association list: first binding wins. -/
def dictGet (d : List (String × α)) (k : String) : Option α :=
  (d.find? (fun p => p.1 == k)).map Prod.snd

/-- `FSM_CLAIMS_UPLOAD` from backend/fsm.py. -/
def FSM_CLAIMS_UPLOAD : List (String × List (String × String)) :=
  [ ("START", [("begin", "WAITING_FOR_RECEIPT")]),
    ("WAITING_FOR_RECEIPT", [("upload", "RECEIPT_RECEIVED"), ("reset", "START")]),
    ("RECEIPT_RECEIVED", [("validate_ok", "VALIDATED"), ("reset", "START")]),
    ("VALIDATED", [("finish", "DONE"), ("reset", "START")]),
    ("DONE", [("reset", "START")]) ]

/-- `FSM_VISIT_PREP` from backend/fsm.py. -/
def FSM_VISIT_PREP : List (String × List (String × String)) :=
  [ ("START", [("begin", "WAITING_FOR_CONFIRMATION")]),
    ("WAITING_FOR_CONFIRMATION", [("confirm", "CONFIRMED"), ("reset", "START")]),
    ("CONFIRMED", [("finish", "DONE"), ("reset", "START")]),
    ("DONE", [("reset", "START")]) ]

/-- `FSM_RUN` from backend/fsm.py. -/
def FSM_RUN : List (String × List (String × String)) :=
  [ ("START", [("begin", "WAITING_FOR_ID")]),
    ("WAITING_FOR_ID", [("provide_id", "ID_RECEIVED"), ("reset", "START")]),
    ("ID_RECEIVED", [("validate_ok", "VALIDATED"), ("reset", "START")]),
    ("VALIDATED", [("finish", "DONE"), ("reset", "START")]),
    ("DONE", [("reset", "START")]) ]

/-- The two-level dict lookup `table.get(s, \x7b\x7d).get(e)` used by `step`. -/
def lookupTable (table : List (String × List (String × String)))
    (s e : String) : Option String :=
  dictGet ((dictGet table s).getD []) e

/-- `step` from backend/fsm.py: only the claims-upload workflow ever consults
a table; every other workflow name returns the current state unchanged. -/
def step (current_state event workflow : String) : String :=
  if workflow = "claims_upload_workflow" then
    (lookupTable FSM_CLAIMS_UPLOAD current_state event).getD current_state
  else current_state

/-- The table each declared workflow name owns (used to state hypotheses
about "the workflow's transition table"; unknown names own no entries). -/
def workflowTable (workflow : String) : List (String × List (String × String)) :=
  if workflow = "claims_upload_workflow" then FSM_CLAIMS_UPLOAD
  else if workflow = "visit_prep_workflow" then FSM_VISIT_PREP
  else if workflow = "run_workflow" then FSM_RUN
  else []

/-! ### State store and workflow engine (backend/fsm_manager.py) -/

/-- One row of the `conversation_state` table. -/
structure ConvRow where
  participant_id : String
  workflow_name : String
  state : String
deriving DecidableEq

/-- The `conversation_state` table plus a log of every upsert performed,
so that "exactly one write per call" is a provable statement. -/
structure ConvStore where
  rows : List ConvRow
  writeLog : List ConvRow
deriving DecidableEq

/-- `get_state` from backend/fsm_manager.py: first row matching the
(participant_id, workflow_name) key, defaulting to "START". -/
def get_state (store : ConvStore) (pid wf : String) : String :=
  match store.rows.find?
      (fun row => row.participant_id == pid && row.workflow_name == wf) with
  | some row => row.state
  | none => "START"

/-- Upsert with conflict key (participant_id, workflow_name): replace the
conflicting row, or append when none exists. -/
def upsertRows : List ConvRow → String → String → String → List ConvRow
  | [], pid, wf, st => [⟨pid, wf, st⟩]
  | row :: rest, pid, wf, st =>
    if row.participant_id == pid && row.workflow_name == wf then
      ⟨pid, wf, st⟩ :: rest
    else
      row :: upsertRows rest pid wf st

/-- `save_state` from backend/fsm_manager.py: one upsert, recorded in the
write log. -/
def save_state (store : ConvStore) (pid wf new_state : String) : ConvStore :=
  { rows := upsertRows store.rows pid wf new_state,
    writeLog := store.writeLog ++ [⟨pid, wf, new_state⟩] }

/-- `advance_state` from backend/fsm_manager.py: read, step, save, return. -/
def advance_state (store : ConvStore) (pid wf intent : String) :
    String × ConvStore :=
  let current := get_state store pid wf
  let new := step current intent wf
  (new, save_state store pid wf new)

/-- `route_intent`: the intent-to-workflow routing of the webhook handler in
backend/gateway.py. -/
def route_intent (intent : String) : Option String :=
  if intent ∈ ["begin", "upload", "validate_ok", "finish", "reset"] then
    some "claims_upload_workflow"
  else if intent = "confirm" then some "visit_prep_workflow"
  else if intent = "provide_id" then some "run_workflow"
  else none

/-! Helper lemmas about the state store. -/

lemma find_upsertRows (rows : List ConvRow) (pid wf st : String) :
    (upsertRows rows pid wf st).find?
        (fun row => row.participant_id == pid && row.workflow_name == wf) =
      some ⟨pid, wf, st⟩ := by
  induction rows with
  | nil => simp [upsertRows, List.find?]
  | cons row rest ih =>
    by_cases h : (row.participant_id == pid && row.workflow_name == wf) = true
    · simp [upsertRows, h, List.find?]
    · simp only [upsertRows, h, if_false, Bool.false_eq_true]
      rw [List.find?_cons_of_neg _ (by simpa using h)]
      exact ih

lemma get_state_save (store : ConvStore) (pid wf st : String) :
    get_state (save_state store pid wf st) pid wf = st := by
  simp [get_state, save_state, find_upsertRows]

lemma step_of_other_workflow (s e w : String)
    (h : w ≠ "claims_upload_workflow") : step s e w = s := by
  simp [step, h]

/-! ### Reminders (backend/reminder_service.py) -/

/-- Status column of the `notifications` table. -/
inductive RStatus
  | pending
  | sent
  | failed
deriving DecidableEq

/-- One row of the `notifications` table.  Instants are minutes since an
arbitrary epoch; `visit_date` is the occurrence key used for deduplication. -/
structure Reminder where
  id : Nat
  participant_id : String
  message : String
  scheduled_at : Nat
  template_type : String
  status : RStatus
  retry_count : Nat
  visit_date : Nat
  last_attempt : Option Nat
deriving DecidableEq

/-- The `notifications` table. -/
abbrev NotifStore := List Reminder

/-- The row `schedule_reminder` builds: scheduled immediately or after
`delay_minutes`, with `visit_date` defaulting to the scheduled time when the
caller passes none (Python `visit_date or scheduled_time`). -/
def mkReminder (id : Nat) (pid message : String) (now delay_minutes : Nat)
    (template_type : String) (visit_date : Option Nat) (immediate : Bool) :
    Reminder :=
  let scheduled_time := if immediate then now else now + delay_minutes
  let visit_date_val := visit_date.getD scheduled_time
  { id := id, participant_id := pid, message := message,
    scheduled_at := scheduled_time, template_type := template_type,
    status := RStatus.pending, retry_count := 0,
    visit_date := visit_date_val, last_attempt := none }

/-- The dedup-key predicate of `schedule_reminder`: equality on
(participant_id, template_type, visit_date). -/
def keyMatch (pid template_type : String) (visit_date : Nat)
    (x : Reminder) : Bool :=
  x.participant_id == pid && x.template_type == template_type &&
    x.visit_date == visit_date

/-- `schedule_reminder` from backend/reminder_service.py: read-then-insert
dedup on (participant_id, template_type, visit_date); a hit is a silent
no-op. -/
def schedule_reminder (db : NotifStore) (id : Nat) (pid message : String)
    (now delay_minutes : Nat) (template_type : String)
    (visit_date : Option Nat) (immediate : Bool) : NotifStore :=
  let r := mkReminder id pid message now delay_minutes template_type
    visit_date immediate
  if db.any (keyMatch pid template_type r.visit_date) then db
  else db ++ [r]

/-- Rows with a given dedup key. -/
def countKey (db : NotifStore) (pid template_type : String)
    (visit_date : Nat) : Nat :=
  (db.filter (keyMatch pid template_type visit_date)).length

/-- `fetch_due_reminders`: pending rows with `scheduled_at` at or before
`now`, ordered by `scheduled_at` ascending, at most `limit` of them. -/
def fetch_due_reminders (db : NotifStore) (now limit : Nat) : List Reminder :=
  ((db.filter
      (fun r => decide (r.scheduled_at ≤ now) &&
        decide (r.status = RStatus.pending))).insertionSort
    (fun a b => a.scheduled_at ≤ b.scheduled_at)).take limit

/-- The Dispatcher's external collaborators: the participant directory and
the send channel (`True` means `send_text` raises), plus the current time. -/
structure DeliveryEnv where
  phone : String → Option String
  sendFails : String → Bool
  now : Nat

/-- The try-block of `process_reminder`: resolve the phone (none means the
row is marked failed with no retry), then send; a raising send is an error
that the except-branch will catch. -/
def attemptDelivery (env : DeliveryEnv) (r : Reminder) :
    Except String Reminder :=
  match env.phone r.participant_id with
  | none =>
    Except.ok { r with status := RStatus.failed, last_attempt := some env.now }
  | some ph =>
    if env.sendFails ph then Except.error "send_text raised"
    else
      Except.ok { r with status := RStatus.sent, last_attempt := some env.now }

/-- The except-branch of `process_reminder`: increment the retry counter;
at most 3 retries, with `2 ^ count` minutes of backoff; beyond that the row
is marked failed. -/
def handleFailure (env : DeliveryEnv) (r : Reminder) : Reminder :=
  let count := r.retry_count + 1
  if count ≤ 3 then
    { r with
      retry_count := count
      status := RStatus.pending
      scheduled_at := env.now + 2 ^ count }
  else
    { r with status := RStatus.failed, last_attempt := some env.now }

/-- `process_reminder`: the try/except collapsed to a total function. -/
def process_reminder (env : DeliveryEnv) (r : Reminder) : Reminder :=
  match attemptDelivery env r with
  | Except.ok r2 => r2
  | Except.error _ => handleFailure env r

/-- `process_reminder` with the exception flow kept explicit: an error value
would be an exception escaping into the dispatcher loop. -/
def process_reminder_exc (env : DeliveryEnv) (r : Reminder) :
    Except String Reminder :=
  match attemptDelivery env r with
  | Except.ok r2 => Except.ok r2
  | Except.error _ => Except.ok (handleFailure env r)

/-- Write the processed row back by id (the Supabase update by `id`). -/
def updateRow (db : NotifStore) (r2 : Reminder) : NotifStore :=
  db.map (fun x => if x.id == r2.id then r2 else x)

/-- One iteration of the dispatcher loop under exception semantics: an
exception escaping the body aborts the whole remaining batch. -/
def loopBody (env : DeliveryEnv) (acc : Except String NotifStore)
    (r : Reminder) : Except String NotifStore :=
  match acc with
  | Except.error e => Except.error e
  | Except.ok db =>
    match process_reminder_exc env r with
    | Except.error e => Except.error e
    | Except.ok r2 => Except.ok (updateRow db r2)

/-- `send_due_reminders`: fetch at most 5 due rows and process each in
order, under exception semantics. -/
def send_due_reminders (env : DeliveryEnv) (db : NotifStore) :
    Except String NotifStore :=
  (fetch_due_reminders db env.now 5).foldl (loopBody env) (Except.ok db)

/-- The reminder-scheduling tail of `handle_receipt`
(backend/media_service.py) for a recognized visit schedule: three
`schedule_reminder` calls, immediate / 2 days / 2 hours, none of which
passes the `visit_date` argument. -/
def handle_receipt_reminders (db : NotifStore) (pid : String)
    (now idBase : Nat) : NotifStore :=
  let db1 := schedule_reminder db idBase pid "Visit scheduled" now 0
    "visit_created" none true
  let db2 := schedule_reminder db1 (idBase + 1) pid
    "Reminder: your visit is in 2 days." now (2 * 24 * 60)
    "visit_2days" none false
  schedule_reminder db2 (idBase + 2) pid
    "Reminder: your visit is in 2 hours." now (2 * 60)
    "visit_2hours" none false

/-! ### Concrete fixtures used by witnesses and counterexamples -/

/-- An environment whose send channel always raises. -/
def envFail : DeliveryEnv :=
  { phone := fun _ => some "120363", sendFails := fun _ => true, now := 0 }

/-- An environment in which no participant has a phone number. -/
def envNoPhone : DeliveryEnv :=
  { phone := fun _ => none, sendFails := fun _ => false, now := 0 }

/-- A fresh pending reminder, due at time 0, never retried. -/
def r0 : Reminder :=
  { id := 1, participant_id := "p1", message := "hi", scheduled_at := 0,
    template_type := "generic", status := RStatus.pending, retry_count := 0,
    visit_date := 0, last_attempt := none }

/-- A pending reminder due at minute 1. -/
def rA : Reminder :=
  { id := 2, participant_id := "p1", message := "first", scheduled_at := 1,
    template_type := "visit_2days", status := RStatus.pending,
    retry_count := 0, visit_date := 9, last_attempt := none }

/-- A pending reminder due at minute 2. -/
def rB : Reminder :=
  { id := 3, participant_id := "p2", message := "second", scheduled_at := 2,
    template_type := "visit_2hours", status := RStatus.pending,
    retry_count := 0, visit_date := 9, last_attempt := none }

/-- A notifications table holding the later-due row first. -/
def db6 : NotifStore := [rB, rA]

/-- A conversation-state store holding a state string that is not in the
claims-upload workflow's declared state set. -/
def corruptStore : ConvStore :=
  { rows := [⟨"p1", "claims_upload_workflow", "CORRUPT"⟩], writeLog := [] }

/-! ### Claim theorems -/

/-- Claim C3: when (current state, event) has no entry in the workflow's
transition table, `step` returns the current state unchanged, and
`advance_state` leaves the stored state value unchanged. -/
theorem unknown_event_ignored_C3 (w e : String) (store : ConvStore)
    (pid : String)
    (h : lookupTable (workflowTable w) (get_state store pid w) e = none) :
    step (get_state store pid w) e w = get_state store pid w ∧
    get_state (advance_state store pid w e).2 pid w =
      get_state store pid w := by
  have hstep : step (get_state store pid w) e w = get_state store pid w := by
    by_cases hw : w = "claims_upload_workflow"
    · subst hw
      have hw2 : workflowTable "claims_upload_workflow" = FSM_CLAIMS_UPLOAD :=
        rfl
      rw [hw2] at h
      simp [step, h]
    · simp [step, hw]
  refine ⟨hstep, ?_⟩
  have h2 : (advance_state store pid w e).2 =
      save_state store pid w (step (get_state store pid w) e w) := rfl
  rw [h2, get_state_save, hstep]

/-- Witness for C3 at a concrete unknown event: "begin" has no entry from
state "DONE", and `advance_state` keeps the stored state "DONE". -/
theorem unknown_event_ignored_witness_C3 :
    lookupTable (workflowTable "claims_upload_workflow")
      (get_state (save_state { rows := [], writeLog := [] } "p1"
        "claims_upload_workflow" "DONE") "p1" "claims_upload_workflow")
      "begin" = none ∧
    get_state (advance_state (save_state { rows := [], writeLog := [] } "p1"
        "claims_upload_workflow" "DONE") "p1" "claims_upload_workflow"
        "begin").2 "p1" "claims_upload_workflow" =
      get_state (save_state { rows := [], writeLog := [] } "p1"
        "claims_upload_workflow" "DONE") "p1" "claims_upload_workflow" :=
  ⟨by decide,
    (unknown_event_ignored_C3 "claims_upload_workflow" "begin"
      (save_state { rows := [], writeLog := [] } "p1"
        "claims_upload_workflow" "DONE") "p1" (by decide)).2⟩

/-- Claim C4: `advance_state` computes the new state from the stored state
via `step`, performs exactly one upsert (also when the state did not move),
returns the persisted state, and an empty store reads as "START". -/
theorem advance_single_write_C4 (store : ConvStore) (pid w e : String) :
    (advance_state store pid w e).1 = step (get_state store pid w) e w ∧
    (advance_state store pid w e).2.writeLog =
      store.writeLog ++ [⟨pid, w, (advance_state store pid w e).1⟩] ∧
    get_state (advance_state store pid w e).2 pid w =
      (advance_state store pid w e).1 ∧
    get_state { rows := [], writeLog := [] } pid w = "START" := by
  refine ⟨rfl, rfl, ?_, rfl⟩
  exact get_state_save store pid w _

/-- Claim C5, amended: when no row exists the engine does default the
current state to "START", but a stored state outside the workflow's declared
state set is used as-is — it has no transitions, so `advance_state` returns
it unchanged instead of resetting to the start state. -/
theorem corrupt_state_policy_C5 (store : ConvStore) (pid e : String) :
    (store.rows.find? (fun row => row.participant_id == pid &&
        row.workflow_name == "claims_upload_workflow") = none →
      get_state store pid "claims_upload_workflow" = "START") ∧
    (dictGet FSM_CLAIMS_UPLOAD
        (get_state store pid "claims_upload_workflow") = none →
      (advance_state store pid "claims_upload_workflow" e).1 =
        get_state store pid "claims_upload_workflow") := by
  constructor
  · intro h
    simp [get_state, h]
  · intro h
    have hl : lookupTable FSM_CLAIMS_UPLOAD
        (get_state store pid "claims_upload_workflow") e = none := by
      rw [lookupTable, h]
      rfl
    show step (get_state store pid "claims_upload_workflow") e
      "claims_upload_workflow" = _
    simp [step, hl]

/-- Witness for C5 (amended) on `corruptStore`: the stored "CORRUPT" state
is not a key of the table, and `advance_state` returns it unchanged. -/
theorem corrupt_state_policy_witness_C5 :
    dictGet FSM_CLAIMS_UPLOAD
      (get_state corruptStore "p1" "claims_upload_workflow") = none ∧
    (advance_state corruptStore "p1" "claims_upload_workflow" "begin").1 =
      get_state corruptStore "p1" "claims_upload_workflow" :=
  ⟨by decide,
    (corrupt_state_policy_C5 corruptStore "p1" "begin").2 (by decide)⟩

/-- Counterexample for C5 as stated: with "CORRUPT" stored — a state not in
the declared state set — `advance_state` on event "begin" returns "CORRUPT",
whereas treating the current state as "START" would give
"WAITING_FOR_RECEIPT". -/
theorem corrupt_state_counterexample_C5 :
    (advance_state corruptStore "p1" "claims_upload_workflow" "begin").1 =
      "CORRUPT" ∧
    step "START" "begin" "claims_upload_workflow" = "WAITING_FOR_RECEIPT" ∧
    ¬ ("CORRUPT" ∈ FSM_CLAIMS_UPLOAD.map Prod.fst) ∧
    "CORRUPT" ≠ "WAITING_FOR_RECEIPT" := by decide

/-- Claim C10: `step` is the identity for every workflow name other than
"claims_upload_workflow"; in particular the visit-prep and run workflows the
gateway routes "confirm" and "provide_id" to never move, even on transitions
their (unreachable) tables declare, and `advance_state` keeps their stored
state unchanged. -/
theorem non_claims_workflows_frozen_C10 :
    (∀ s e w, w ≠ "claims_upload_workflow" → step s e w = s) ∧
    (∀ s e, step s e "visit_prep_workflow" = s ∧
      step s e "run_workflow" = s) ∧
    route_intent "confirm" = some "visit_prep_workflow" ∧
    route_intent "provide_id" = some "run_workflow" ∧
    lookupTable FSM_VISIT_PREP "START" "begin" =
      some "WAITING_FOR_CONFIRMATION" ∧
    step "START" "begin" "visit_prep_workflow" = "START" ∧
    (∀ store pid e,
      get_state (advance_state store pid "visit_prep_workflow" e).2 pid
        "visit_prep_workflow" = get_state store pid "visit_prep_workflow") := by
  refine ⟨fun s e w hw => step_of_other_workflow s e w hw,
    fun s e => ⟨step_of_other_workflow s e _ (by decide),
      step_of_other_workflow s e _ (by decide)⟩,
    by decide, by decide, by decide, by decide, ?_⟩
  intro store pid e
  have h2 : (advance_state store pid "visit_prep_workflow" e).2 =
      save_state store pid "visit_prep_workflow"
        (step (get_state store pid "visit_prep_workflow") e
          "visit_prep_workflow") := rfl
  rw [h2, get_state_save,
    step_of_other_workflow _ _ _ (by decide : "visit_prep_workflow" ≠
      "claims_upload_workflow")]

/-- Witness for C10 at a concrete input: the run workflow is not the
claims-upload workflow and its `step` keeps any state, here
"WAITING_FOR_ID" on its own declared event "provide_id". -/
theorem non_claims_workflows_frozen_witness_C10 :
    "run_workflow" ≠ "claims_upload_workflow" ∧
    step "WAITING_FOR_ID" "provide_id" "run_workflow" = "WAITING_FOR_ID" :=
  ⟨by decide,
    non_claims_workflows_frozen_C10.1 "WAITING_FOR_ID" "provide_id"
      "run_workflow" (by decide)⟩

/-- Claim C1, amended: a failed delivery attempt on a reminder with
`retry_count < 3` keeps it pending with the counter incremented and
`scheduled_at` set to the attempt time plus `2 ^ (retry_count + 1)` minutes
(the exponent is the counter after the increment, not before); with
`retry_count ≥ 3` the reminder becomes failed. -/
theorem retry_backoff_C1 (env : DeliveryEnv) (r : Reminder) (ph : String)
    (hph : env.phone r.participant_id = some ph)
    (hfail : env.sendFails ph = true) :
    (r.retry_count < 3 →
      process_reminder env r =
        { r with
          retry_count := r.retry_count + 1
          status := RStatus.pending
          scheduled_at := env.now + 2 ^ (r.retry_count + 1) }) ∧
    (3 ≤ r.retry_count → (process_reminder env r).status = RStatus.failed) := by
  have hpr : process_reminder env r = handleFailure env r := by
    simp [process_reminder, attemptDelivery, hph, hfail]
  constructor
  · intro hlt
    have hc : r.retry_count + 1 ≤ 3 := hlt
    rw [hpr]
    simp only [handleFailure]
    rw [if_pos hc]
  · intro hge
    rw [hpr]
    have hno : ¬ (r.retry_count + 1 ≤ 3) := by omega
    simp [handleFailure, hno]

/-- Witness for C1 (amended) on `envFail` and the fresh reminder `r0`:
the first failure reschedules it 2 minutes out with counter 1. -/
theorem retry_backoff_witness_C1 :
    envFail.phone r0.participant_id = some "120363" ∧
    envFail.sendFails "120363" = true ∧
    r0.retry_count < 3 ∧
    process_reminder envFail r0 =
      { r0 with
        retry_count := r0.retry_count + 1
        status := RStatus.pending
        scheduled_at := envFail.now + 2 ^ (r0.retry_count + 1) } :=
  ⟨rfl, rfl, by decide,
    (retry_backoff_C1 envFail r0 "120363" rfl rfl).1 (by decide)⟩

/-- Counterexample for C1 as stated: for `r0` (retry_count 0) failing at
time 0, the code reschedules to minute 2 = 2^1, not minute 1 = 0 + 2^0 as
the pre-increment exponent would demand. -/
theorem retry_backoff_counterexample_C1 :
    (process_reminder envFail r0).status = RStatus.pending ∧
    r0.retry_count < 3 ∧
    (process_reminder envFail r0).scheduled_at = 2 ∧
    envFail.now + 2 ^ r0.retry_count = 1 ∧
    (process_reminder envFail r0).scheduled_at ≠
      envFail.now + 2 ^ r0.retry_count := by decide

/-- The occurrence key of a row built with an explicit `visit_date`. -/
lemma mkReminder_visit_date_some (id : Nat) (pid m : String) (now d : Nat)
    (tt : String) (k : Nat) (imm : Bool) :
    (mkReminder id pid m now d tt (some k) imm).visit_date = k := rfl

/-- A freshly built row matches its own dedup key. -/
lemma keyMatch_mkReminder (id : Nat) (pid m : String) (now d : Nat)
    (tt : String) (k : Nat) (imm : Bool) :
    keyMatch pid tt k (mkReminder id pid m now d tt (some k) imm) = true := by
  simp [keyMatch, mkReminder]

/-- Claim C2: scheduling twice with the same (participant_id,
template_type, occurrence key) triple is idempotent — the second call is a
no-op, and starting from a table with no row on that key, exactly one row
on the key exists after both calls. -/
theorem schedule_idempotent_C2 (db : NotifStore) (id1 id2 : Nat)
    (pid m1 m2 : String) (now1 now2 d1 d2 : Nat) (tt : String) (k : Nat)
    (imm1 imm2 : Bool) :
    schedule_reminder (schedule_reminder db id1 pid m1 now1 d1 tt (some k)
        imm1) id2 pid m2 now2 d2 tt (some k) imm2 =
      schedule_reminder db id1 pid m1 now1 d1 tt (some k) imm1 ∧
    (countKey db pid tt k = 0 →
      countKey (schedule_reminder db id1 pid m1 now1 d1 tt (some k) imm1)
        pid tt k = 1) := by
  by_cases hany : db.any (keyMatch pid tt k) = true
  · have h1 : schedule_reminder db id1 pid m1 now1 d1 tt (some k) imm1 = db := by
      simp only [schedule_reminder, mkReminder_visit_date_some]
      rw [if_pos hany]
    constructor
    · rw [h1]
      simp only [schedule_reminder, mkReminder_visit_date_some]
      rw [if_pos hany]
    · intro h0
      exfalso
      obtain ⟨x, hx, hkx⟩ := List.any_eq_true.mp hany
      have hmem : x ∈ db.filter (keyMatch pid tt k) :=
        List.mem_filter.mpr ⟨hx, hkx⟩
      have : db.filter (keyMatch pid tt k) = [] :=
        List.length_eq_zero.mp h0
      rw [this] at hmem
      exact List.not_mem_nil x hmem
  · have h1 : schedule_reminder db id1 pid m1 now1 d1 tt (some k) imm1 =
        db ++ [mkReminder id1 pid m1 now1 d1 tt (some k) imm1] := by
      simp only [schedule_reminder, mkReminder_visit_date_some]
      rw [if_neg hany]
    have hany2 : (db ++ [mkReminder id1 pid m1 now1 d1 tt (some k)
        imm1]).any (keyMatch pid tt k) = true := by
      rw [List.any_append]
      simp [keyMatch_mkReminder]
    constructor
    · rw [h1]
      simp only [schedule_reminder, mkReminder_visit_date_some]
      rw [if_pos hany2]
    · intro h0
      rw [h1, countKey, List.filter_append]
      have hnil : db.filter (keyMatch pid tt k) = [] :=
        List.length_eq_zero.mp h0
      rw [hnil]
      simp [keyMatch_mkReminder]

/-- Witness for C2 at a concrete triple on the empty table: one row with
the key after a first call, still one row after a repeat. -/
theorem schedule_idempotent_witness_C2 :
    schedule_reminder (schedule_reminder [] 1 "p1" "a" 0 5 "t" (some 7)
        false) 2 "p1" "b" 3 9 "t" (some 7) true =
      schedule_reminder [] 1 "p1" "a" 0 5 "t" (some 7) false ∧
    countKey ([] : NotifStore) "p1" "t" 7 = 0 ∧
    countKey (schedule_reminder [] 1 "p1" "a" 0 5 "t" (some 7) false)
      "p1" "t" 7 = 1 :=
  ⟨(schedule_idempotent_C2 [] 1 2 "p1" "a" "b" 0 3 5 9 "t" 7 false true).1,
    by decide,
    (schedule_idempotent_C2 [] 1 2 "p1" "a" "b" 0 3 5 9 "t" 7 false
      true).2 (by decide)⟩

/-- Claim C7: a scheduled row starts with `retry_count = 0`, and whenever a
processed reminder comes out still pending, its counter was strictly
incremented by one and does not exceed 3. -/
theorem retry_ceiling_C7 (id : Nat) (pid m : String) (now d : Nat)
    (tt : String) (vd : Option Nat) (imm : Bool)
    (env : DeliveryEnv) (r : Reminder) :
    (mkReminder id pid m now d tt vd imm).retry_count = 0 ∧
    ((process_reminder env r).status = RStatus.pending →
      (process_reminder env r).retry_count = r.retry_count + 1 ∧
      r.retry_count < (process_reminder env r).retry_count ∧
      (process_reminder env r).retry_count ≤ 3) := by
  refine ⟨rfl, ?_⟩
  intro hp
  cases hph : env.phone r.participant_id with
  | none =>
    simp [process_reminder, attemptDelivery, hph] at hp
  | some ph =>
    cases hsf : env.sendFails ph with
    | false =>
      simp [process_reminder, attemptDelivery, hph, hsf] at hp
    | true =>
      have hpr : process_reminder env r = handleFailure env r := by
        simp [process_reminder, attemptDelivery, hph, hsf]
      rw [hpr] at hp ⊢
      by_cases hc : r.retry_count + 1 ≤ 3
      · simp only [handleFailure]
        rw [if_pos hc]
        exact ⟨rfl, Nat.lt_succ_self _, hc⟩
      · simp [handleFailure, hc] at hp

/-- Witness for C7: processing the fresh reminder `r0` through the failing
channel leaves it pending with counter 1 ≤ 3. -/
theorem retry_ceiling_witness_C7 :
    (mkReminder 9 "p1" "hi" 0 5 "generic" none false).retry_count = 0 ∧
    (process_reminder envFail r0).status = RStatus.pending ∧
    (process_reminder envFail r0).retry_count = r0.retry_count + 1 ∧
    (process_reminder envFail r0).retry_count ≤ 3 :=
  ⟨(retry_ceiling_C7 9 "p1" "hi" 0 5 "generic" none false envFail r0).1,
    by decide,
    ((retry_ceiling_C7 9 "p1" "hi" 0 5 "generic" none false envFail
      r0).2 (by decide)).1,
    ((retry_ceiling_C7 9 "p1" "hi" 0 5 "generic" none false envFail
      r0).2 (by decide)).2.2⟩

/-! The ordering relation `fetch_due_reminders` sorts by. -/

instance : IsTotal Reminder (fun a b => a.scheduled_at ≤ b.scheduled_at) :=
  ⟨fun a b => Nat.le_total a.scheduled_at b.scheduled_at⟩

instance : IsTrans Reminder (fun a b => a.scheduled_at ≤ b.scheduled_at) :=
  ⟨fun _ _ _ hab hbc => Nat.le_trans hab hbc⟩

/-- Claim C6: `fetch_due_reminders` returns only pending rows due at or
before `now`, at most `limit` of them, and a returned row with a strictly
earlier `scheduled_at` occupies a strictly earlier position. -/
theorem fetch_due_contract_C6 (db : NotifStore) (now limit : Nat) :
    (∀ r ∈ fetch_due_reminders db now limit,
      r.status = RStatus.pending ∧ r.scheduled_at ≤ now) ∧
    (fetch_due_reminders db now limit).length ≤ limit ∧
    (∀ i j (hi : i < (fetch_due_reminders db now limit).length)
        (hj : j < (fetch_due_reminders db now limit).length),
      ((fetch_due_reminders db now limit).get ⟨i, hi⟩).scheduled_at <
        ((fetch_due_reminders db now limit).get ⟨j, hj⟩).scheduled_at →
      i < j) := by
  have hsorted : List.Sorted (fun a b : Reminder =>
      a.scheduled_at ≤ b.scheduled_at) (fetch_due_reminders db now limit) := by
    refine List.Pairwise.sublist (List.take_sublist _ _) ?_
    exact List.sorted_insertionSort _ _
  refine ⟨?_, ?_, ?_⟩
  · intro r hr
    have hr2 : r ∈ (db.filter (fun x => decide (x.scheduled_at ≤ now) &&
        decide (x.status = RStatus.pending))).insertionSort
        (fun a b => a.scheduled_at ≤ b.scheduled_at) :=
      (List.take_sublist _ _).mem hr
    have hr3 : r ∈ db.filter (fun x => decide (x.scheduled_at ≤ now) &&
        decide (x.status = RStatus.pending)) :=
      (List.perm_insertionSort _ _).mem_iff.mp hr2
    have hr4 := List.of_mem_filter hr3
    simp only [Bool.and_eq_true, decide_eq_true_eq] at hr4
    exact ⟨hr4.2, hr4.1⟩
  · rw [fetch_due_reminders, List.length_take]
    exact Nat.min_le_left _ _
  · intro i j hi hj hlt
    by_contra hij
    push_neg at hij
    rcases Nat.lt_or_ge j i with hji | hji
    · have := hsorted.rel_get_of_lt (a := ⟨j, hj⟩) (b := ⟨i, hi⟩)
        (Fin.mk_lt_mk.mpr hji)
      omega
    · have : i = j := by omega
      subst this
      exact Nat.lt_irrefl _ hlt

/-- Witness for C6 on `db6`, where the later-due row is stored first:
the fetched rows are pending and due, and the index-0 row is the earlier
one. -/
theorem fetch_due_contract_witness_C6 :
    (rA.status = RStatus.pending ∧ rA.scheduled_at ≤ 10) ∧
    (fetch_due_reminders db6 10 5).length ≤ 5 ∧
    (0 : Nat) < 1 :=
  ⟨(fetch_due_contract_C6 db6 10 5).1 rA (by decide),
    (fetch_due_contract_C6 db6 10 5).2.1,
    (fetch_due_contract_C6 db6 10 5).2.2 0 1 (by decide) (by decide)
      (by decide)⟩

/-! Helper lemmas for the dispatcher loop. -/

lemma process_reminder_exc_ok (env : DeliveryEnv) (r : Reminder) :
    process_reminder_exc env r = Except.ok (process_reminder env r) := by
  cases h : attemptDelivery env r <;>
    simp [process_reminder, process_reminder_exc, h]

lemma foldl_loopBody_ok (env : DeliveryEnv) :
    ∀ (l : List Reminder) (db : NotifStore),
      l.foldl (loopBody env) (Except.ok db) =
        Except.ok (l.foldl
          (fun cur r => updateRow cur (process_reminder env r)) db) := by
  intro l
  induction l with
  | nil => intro db; rfl
  | cons r rest ih =>
    intro db
    have hstep : loopBody env (Except.ok db) r =
        Except.ok (updateRow db (process_reminder env r)) := by
      simp [loopBody, process_reminder_exc_ok]
    rw [List.foldl_cons, hstep, ih, List.foldl_cons]

/-- Claim C8: the dispatcher cycle never lets a per-reminder failure escape:
under explicit exception semantics it completes on every batch, processing
every fetched reminder in order, while an unresolvable address or a
delivery exception only updates that reminder's own status. -/
theorem dispatcher_isolation_C8 (env : DeliveryEnv) (db : NotifStore) :
    send_due_reminders env db =
      Except.ok ((fetch_due_reminders db env.now 5).foldl
        (fun cur r => updateRow cur (process_reminder env r)) db) ∧
    (∀ r : Reminder, env.phone r.participant_id = none →
      (process_reminder env r).status = RStatus.failed) ∧
    (∀ (r : Reminder) (ph : String), env.phone r.participant_id = some ph →
      env.sendFails ph = true →
      (process_reminder env r).status = RStatus.pending ∨
        (process_reminder env r).status = RStatus.failed) := by
  refine ⟨foldl_loopBody_ok env _ db, ?_, ?_⟩
  · intro r hph
    simp [process_reminder, attemptDelivery, hph]
  · intro r ph hph hsf
    have hpr : process_reminder env r = handleFailure env r := by
      simp [process_reminder, attemptDelivery, hph, hsf]
    rw [hpr]
    by_cases hc : r.retry_count + 1 ≤ 3
    · left
      simp [handleFailure, hc]
    · right
      simp [handleFailure, hc]

/-- Witness for C8: a missing address marks `r0` failed, and a raising send
leaves it pending or failed, with the loop on the singleton table
completing. -/
theorem dispatcher_isolation_witness_C8 :
    send_due_reminders envNoPhone [r0] =
      Except.ok ((fetch_due_reminders [r0] envNoPhone.now 5).foldl
        (fun cur r => updateRow cur (process_reminder envNoPhone r)) [r0]) ∧
    (process_reminder envNoPhone r0).status = RStatus.failed ∧
    ((process_reminder envFail r0).status = RStatus.pending ∨
      (process_reminder envFail r0).status = RStatus.failed) :=
  ⟨(dispatcher_isolation_C8 envNoPhone [r0]).1,
    (dispatcher_isolation_C8 envNoPhone [r0]).2.1 r0 rfl,
    (dispatcher_isolation_C8 envFail [r0]).2.2 r0 "120363" rfl rfl⟩

/-- Claim C9, evaluated at the failing input: one visit-schedule event makes
`handle_receipt` create three rows whose occurrence keys are their own
scheduled times (0, 2880, 120) — not a shared key — and repeating the same
event one minute later inserts three more rows instead of none. -/
theorem receipt_dedup_broken_C9 :
    (handle_receipt_reminders [] "p" 0 1).length = 3 ∧
    (handle_receipt_reminders [] "p" 0 1).map Reminder.template_type =
      ["visit_created", "visit_2days", "visit_2hours"] ∧
    (handle_receipt_reminders [] "p" 0 1).map Reminder.visit_date =
      [0, 2880, 120] ∧
    (handle_receipt_reminders (handle_receipt_reminders [] "p" 0 1)
      "p" 1 4).length = 6 := by decide

end WhatsAppIntegration
